import Mathlib

/-!
Verification development for `rwrap.py`, a Proxmox PVE SPICE wrapper.

The Python source is shallowly embedded: network I/O is modelled by
passing the HTTP response (status code plus parsed JSON body) as an
explicit argument, and functions that perform a network request return,
alongside their `Except` result, a count of the network requests they
issued.  Python exceptions become `Except PyErr`; Python `str.split`,
truthiness tests and dictionary lookups are embedded faithfully.
-/

namespace Rwrap

/-- The Python exceptions the script can raise, with the payload the
claims care about (the HTTP status code where the source includes it
in the message). -/
inductive PyErr where
  /-- `ValueError("Neither Name nor ID provided")` in `get_node_info`. -/
  | validation
  /-- `BaseException("VM not found in cluster")` in `get_node_info`. -/
  | notFound
  /-- `IndexError` from `item['id'].split('/')[1]` in `get_node_info`. -/
  | indexError
  /-- `KeyError` from a missing JSON dictionary key. -/
  | keyError
  /-- `ConnectionError('PVE proxy returned HTTP code ...')` in `get_pve_cookies`. -/
  | authError (status : Nat)
  /-- `ConnectionError('Could not get SPICE params ...')` in `get_spice_info`. -/
  | proxyError (status : Nat)
  /-- `requests.exceptions.HTTPError` raised by `raise_for_status()`. -/
  | httpError (status : Nat)
deriving DecidableEq, Repr

/-- Python truthiness test `not x` for an optional string (`None` and the
empty string are falsy). -/
def pyFalsy : Option String → Bool
  | none => true
  | some s => s == ""

/-- Python `str.split(sep)` on the character list of a string:
`''.split('/') = ['']`, `'ab/c'.split('/') = ['ab', 'c']`, and so on. -/
def pySplit (sep : Char) : List Char → List (List Char)
  | [] => [[]]
  | c :: cs =>
    let rest := pySplit sep cs
    if c = sep then [] :: rest
    else
      match rest with
      | [] => [[c]]
      | p :: ps => (c :: p) :: ps

/-- One entry of the `GET cluster/resources` inventory, with the four
JSON fields `get_node_info` reads. -/
structure ResItem where
  id : String
  type : String
  name : String
  node : String
deriving DecidableEq, Repr

/-- The `vminfo` dictionary returned by `get_node_info` (keys
`name`, `type`, `id`, `node`). -/
structure VmInfo where
  name : String
  type : String
  id : String
  node : String
deriving DecidableEq, Repr

/-- The inventory response: HTTP status code and the parsed `data` list. -/
structure ResourcesResponse where
  status : Nat
  data : List ResItem
deriving DecidableEq, Repr

/-- `item['id'].split('/')[1]` — `none` models the `IndexError` when the
composite id has no `/`. -/
def trueId (s : String) : Option String :=
  ((pySplit '/' s.data)[1]?).map fun l => ⟨l⟩

/-- The `for item in pve_resource` loop of `get_node_info`: `acc` is the
`vminfo` dictionary built so far (`none` = still empty).  Each matching
entry overwrites all four keys, so the last match wins; a bad composite
id raises `IndexError` and aborts the loop. -/
def scan (vmname vmid : Option String) : List ResItem → Option VmInfo →
    Except PyErr (Option VmInfo)
  | [], acc => .ok acc
  | item :: rest, acc =>
    if item.type = "lxc" ∨ item.type = "qemu" then
      match trueId item.id with
      | none => .error .indexError
      | some tid =>
        if vmname = some item.name ∨ vmid = some tid then
          scan vmname vmid rest (some ⟨item.name, item.type, tid, item.node⟩)
        else
          scan vmname vmid rest acc
    else
      scan vmname vmid rest acc

/-- `get_node_info`, with the inventory response passed explicitly.  The
second component counts the network requests issued (the single
`requests.get` happens only after the `ValueError` guard). -/
def get_node_info (resp : ResourcesResponse) (vmname vmid : Option String) :
    Except PyErr VmInfo × Nat :=
  if pyFalsy vmname && pyFalsy vmid then
    (.error .validation, 0)
  else
    match scan vmname vmid resp.data none with
    | .error e => (.error e, 1)
    | .ok none => (.error .notFound, 1)
    | .ok (some v) => (.ok v, 1)

/-- Spec-side bare id: the composite id with the leading `<kind>/`
stripped (drop the kind plus the separator). -/
def specBareId (it : ResItem) : String :=
  ⟨it.id.data.drop (it.type.data.length + 1)⟩

/-- Spec-side matching predicate: the entry's kind is supported and its
name equals the requested name or its bare id equals the requested id. -/
abbrev matchesQuery (vmname vmid : Option String) (it : ResItem) : Prop :=
  (it.type = "lxc" ∨ it.type = "qemu") ∧
    (vmname = some it.name ∨ vmid = some (specBareId it))

/-- The spec-side list of matching inventory entries, in inventory order. -/
def specMatches (vmname vmid : Option String) (l : List ResItem) : List ResItem :=
  l.filter fun it => decide (matchesQuery vmname vmid it)

/-- The Resource Identity the spec assigns to a matching entry. -/
def specIdentity (it : ResItem) : VmInfo :=
  ⟨it.name, it.type, specBareId it, it.node⟩

/-- Well-formed inventory: every supported-kind entry's composite id is
exactly its kind, a `/`, and a slash-free bare id. -/
def wfInventory (l : List ResItem) : Prop :=
  ∀ it ∈ l, (it.type = "lxc" ∨ it.type = "qemu") →
    ∃ bare : List Char, it.id.data = it.type.data ++ '/' :: bare ∧ '/' ∉ bare

theorem pySplit_ne_nil (sep : Char) (l : List Char) : pySplit sep l ≠ [] := by
  induction l with
  | nil => simp [pySplit]
  | cons c cs ih =>
    simp only [pySplit]
    split
    · simp
    · split
      · simp
      · simp

theorem pySplit_of_not_mem (sep : Char) (l : List Char) (h : sep ∉ l) :
    pySplit sep l = [l] := by
  induction l with
  | nil => rfl
  | cons c cs ih =>
    simp only [List.mem_cons, not_or] at h
    have hc : ¬ c = sep := fun hc => h.1 hc.symm
    simp only [pySplit, if_neg hc, ih h.2]

theorem pySplit_append (sep : Char) (xs ys : List Char) (h : sep ∉ xs) :
    pySplit sep (xs ++ sep :: ys) = xs :: pySplit sep ys := by
  induction xs with
  | nil => simp [pySplit]
  | cons c cs ih =>
    simp only [List.mem_cons, not_or] at h
    have hc : ¬ c = sep := fun hc => h.1 hc.symm
    simp only [List.cons_append, pySplit, if_neg hc, List.append_eq, ih h.2]

theorem trueId_of_wf (t bare : List Char) (ht : '/' ∉ t) (hb : '/' ∉ bare) :
    trueId ⟨t ++ '/' :: bare⟩ = some ⟨bare⟩ := by
  simp only [trueId]
  rw [pySplit_append '/' t bare ht, pySplit_of_not_mem '/' bare hb]
  rfl

theorem specBareId_of_wf (it : ResItem) (bare : List Char)
    (h : it.id.data = it.type.data ++ '/' :: bare) : specBareId it = ⟨bare⟩ := by
  simp only [specBareId, h]
  rw [show it.type.data ++ '/' :: bare = (it.type.data ++ ['/']) ++ bare by simp,
    show it.type.data.length + 1 = (it.type.data ++ ['/']).length by simp]
  rw [List.drop_left]

/-- Threading of the `vminfo` accumulator through the list of matching
entries: each match overwrites the accumulator with its identity. -/
def lastOr (ms : List ResItem) (acc : Option VmInfo) : Option VmInfo :=
  match ms with
  | [] => acc
  | m :: rest => lastOr rest (some (specIdentity m))

theorem lastOr_eq (ms : List ResItem) (acc : Option VmInfo) :
    lastOr ms acc = match ms.getLast? with
      | some m => some (specIdentity m)
      | none => acc := by
  induction ms generalizing acc with
  | nil => rfl
  | cons m rest ih =>
    show lastOr rest (some (specIdentity m)) = _
    rw [ih]
    cases rest with
    | nil => rfl
    | cons b t =>
      rw [List.getLast?_cons_cons]
      cases h : (b :: t).getLast? with
      | none => simp at h
      | some x => rfl

theorem lastOr_cons (m : ResItem) (ms : List ResItem) (acc : Option VmInfo) :
    lastOr (m :: ms) acc = lastOr ms (some (specIdentity m)) := rfl

theorem specMatches_cons (vmname vmid : Option String) (it : ResItem)
    (l : List ResItem) :
    specMatches vmname vmid (it :: l) =
      if matchesQuery vmname vmid it then it :: specMatches vmname vmid l
      else specMatches vmname vmid l := by
  rw [specMatches, List.filter_cons]
  by_cases h : matchesQuery vmname vmid it
  · rw [if_pos (decide_eq_true h), if_pos h]
    rfl
  · rw [if_neg (by simp only [decide_eq_true_eq]; exact h), if_neg h]
    rfl

theorem scan_wf (vmname vmid : Option String) (l : List ResItem)
    (acc : Option VmInfo) (hwf : wfInventory l) :
    scan vmname vmid l acc = .ok (lastOr (specMatches vmname vmid l) acc) := by
  induction l generalizing acc with
  | nil => rfl
  | cons item rest ih =>
    have hrest : wfInventory rest := fun it hit => hwf it (List.mem_cons_of_mem _ hit)
    rw [specMatches_cons]
    by_cases hvm : item.type = "lxc" ∨ item.type = "qemu"
    · obtain ⟨bare, hid, hb⟩ := hwf item (List.mem_cons_self _ _) hvm
      have ht : '/' ∉ item.type.data := by
        rcases hvm with h | h <;> rw [h] <;> decide
      have hmk : item.id = ⟨item.type.data ++ '/' :: bare⟩ := by
        apply String.ext
        exact hid
      have htid : trueId item.id = some ⟨bare⟩ := by
        rw [hmk]
        exact trueId_of_wf _ _ ht hb
      have hbare : specBareId item = ⟨bare⟩ := specBareId_of_wf item bare hid
      have hident : specIdentity item = ⟨item.name, item.type, ⟨bare⟩, item.node⟩ := by
        rw [specIdentity, hbare]
      simp only [scan, if_pos hvm, htid]
      by_cases hq : vmname = some item.name ∨ vmid = some (String.mk bare)
      · have hmq : matchesQuery vmname vmid item := ⟨hvm, by rw [hbare]; exact hq⟩
        rw [if_pos hq, if_pos hmq, lastOr_cons, ← hident]
        exact ih _ hrest
      · have hmq : ¬ matchesQuery vmname vmid item := by
          rintro ⟨-, hc2⟩
          rw [hbare] at hc2
          exact hq hc2
        rw [if_neg hq, if_neg hmq]
        exact ih _ hrest
    · have hmq : ¬ matchesQuery vmname vmid item := fun hc => hvm hc.1
      simp only [scan, if_neg hvm]
      rw [if_neg hmq]
      exact ih _ hrest

theorem scan_index_error (vmname vmid : Option String) (it : ResItem)
    (hvm : it.type = "lxc" ∨ it.type = "qemu") (hs : '/' ∉ it.id.data) :
    ∀ (l : List ResItem), it ∈ l → ∀ acc : Option VmInfo,
      scan vmname vmid l acc = .error .indexError := by
  intro l
  induction l with
  | nil => intro h; cases h
  | cons a rest ih =>
    intro hmem acc
    rcases List.mem_cons.mp hmem with rfl | hmem2
    · have htid : trueId it.id = none := by
        simp only [trueId]
        rw [pySplit_of_not_mem '/' _ hs]
        rfl
      simp only [scan, if_pos hvm, htid]
    · by_cases hvma : a.type = "lxc" ∨ a.type = "qemu"
      · simp only [scan, if_pos hvma]
        cases htid : trueId a.id with
        | none => rfl
        | some tid =>
          show (if vmname = some a.name ∨ vmid = some tid then
              scan vmname vmid rest (some ⟨a.name, a.type, tid, a.node⟩)
            else scan vmname vmid rest acc) = _
          by_cases hq : vmname = some a.name ∨ vmid = some tid
          · rw [if_pos hq]
            exact ih hmem2 _
          · rw [if_neg hq]
            exact ih hmem2 _
      · simp only [scan, if_neg hvma]
        exact ih hmem2 _

theorem scan_error_classify (vmname vmid : Option String) :
    ∀ (l : List ResItem) (acc : Option VmInfo) (e : PyErr),
      scan vmname vmid l acc = .error e → e = .indexError := by
  intro l
  induction l with
  | nil =>
    intro acc e h
    simp [scan] at h
  | cons a rest ih =>
    intro acc e h
    by_cases hvma : a.type = "lxc" ∨ a.type = "qemu"
    · simp only [scan, if_pos hvma] at h
      cases htid : trueId a.id with
      | none =>
        simp only [htid] at h
        exact (Except.error.inj h).symm
      | some tid =>
        simp only [htid] at h
        by_cases hq : vmname = some a.name ∨ vmid = some tid
        · rw [if_pos hq] at h
          exact ih _ _ h
        · rw [if_neg hq] at h
          exact ih _ _ h
    · simp only [scan, if_neg hvma] at h
      exact ih _ _ h

theorem get_node_info_error_cases (resp : ResourcesResponse)
    (vmname vmid : Option String) (e : PyErr)
    (he : (get_node_info resp vmname vmid).1 = .error e) :
    e = .validation ∨ e = .notFound ∨ e = .indexError := by
  rw [get_node_info] at he
  by_cases hq : (pyFalsy vmname && pyFalsy vmid) = true
  · rw [if_pos hq] at he
    have he2 : (Except.error .validation : Except PyErr VmInfo) = .error e := he
    exact Or.inl (Except.error.inj he2).symm
  · rw [if_neg hq] at he
    cases hscan : scan vmname vmid resp.data none with
    | error e2 =>
      rw [hscan] at he
      have he2 : (Except.error e2 : Except PyErr VmInfo) = .error e := he
      have h3 : e2 = .indexError := scan_error_classify vmname vmid resp.data none e2 hscan
      subst h3
      exact Or.inr (Or.inr (Except.error.inj he2).symm)
    | ok v =>
      cases v with
      | none =>
        rw [hscan] at he
        have he2 : (Except.error .notFound : Except PyErr VmInfo) = .error e := he
        exact Or.inr (Or.inl (Except.error.inj he2).symm)
      | some vi =>
        rw [hscan] at he
        have he2 : (Except.ok vi : Except PyErr VmInfo) = .error e := he
        cases he2

/-- Claim C5: when both the target name and the target id are absent,
`get_node_info` fails with the `ValueError` (ValidationError) and issues
no network request: the inventory endpoint is never contacted. -/
theorem get_node_info_validation (resp : ResourcesResponse)
    (vmname vmid : Option String) (h1 : vmname = none) (h2 : vmid = none) :
    get_node_info resp vmname vmid = (.error .validation, 0) := by
  subst h1
  subst h2
  rfl

/-- Witness for C5 at a concrete inventory response. -/
theorem get_node_info_validation_witness :
    get_node_info ⟨200, [⟨"lxc/202", "lxc", "db1", "pve2"⟩]⟩ none none =
      (.error .validation, 0) :=
  get_node_info_validation ⟨200, [⟨"lxc/202", "lxc", "db1", "pve2"⟩]⟩ none none rfl rfl

/-- Claim C1: on a well-formed inventory and a present query,
`get_node_info` considers only `lxc`/`qemu` entries, matches an entry iff
its name equals the requested name or its bare id (the composite id with
the `kind/` stripped) equals the requested id, returns the last
matching entry's name/kind/bare-id/node, and fails with the
NotFoundError when nothing matches. -/
theorem get_node_info_locates (resp : ResourcesResponse) (vmname vmid : Option String)
    (hq : (pyFalsy vmname && pyFalsy vmid) = false) (hwf : wfInventory resp.data) :
    (get_node_info resp vmname vmid).1 =
      match (specMatches vmname vmid resp.data).getLast? with
      | some m => .ok (specIdentity m)
      | none => .error .notFound := by
  rw [get_node_info, if_neg (by rw [hq]; exact Bool.false_ne_true)]
  rw [scan_wf _ _ _ none hwf, lastOr_eq]
  cases h : (specMatches vmname vmid resp.data).getLast? with
  | none => rfl
  | some m => rfl

/-- Witness for C1: the end-to-end scenario of the spec, querying the
two-entry inventory by name `db1`. -/
theorem get_node_info_locates_witness :
    (get_node_info ⟨200, [⟨"qemu/101", "qemu", "web1", "pve1"⟩,
        ⟨"lxc/202", "lxc", "db1", "pve2"⟩]⟩ (some "db1") none).1 =
      .ok ⟨"db1", "lxc", "202", "pve2"⟩ := by
  have h := get_node_info_locates ⟨200, [⟨"qemu/101", "qemu", "web1", "pve1"⟩,
      ⟨"lxc/202", "lxc", "db1", "pve2"⟩]⟩ (some "db1") none (by decide)
    (by
      intro it hit hvm
      rcases List.mem_cons.mp hit with rfl | hit2
      · exact ⟨"101".data, by decide, by decide⟩
      rcases List.mem_cons.mp hit2 with rfl | hit3
      · exact ⟨"202".data, by decide, by decide⟩
      cases hit3)
  rw [h]
  rfl

/-- Claim C9: a supported-kind inventory entry whose composite id has no
`/` separator makes `get_node_info` fail with the `IndexError` from
`split('/')[1]` rather than skip the entry or report NotFoundError. -/
theorem get_node_info_index_error (resp : ResourcesResponse)
    (vmname vmid : Option String) (it : ResItem)
    (hq : (pyFalsy vmname && pyFalsy vmid) = false)
    (hmem : it ∈ resp.data) (hvm : it.type = "lxc" ∨ it.type = "qemu")
    (hs : '/' ∉ it.id.data) :
    (get_node_info resp vmname vmid).1 = .error .indexError := by
  rw [get_node_info, if_neg (by rw [hq]; exact Bool.false_ne_true)]
  rw [scan_index_error vmname vmid it hvm hs resp.data hmem none]

/-- Witness for C9 at a concrete entry with a slash-free composite id. -/
theorem get_node_info_index_error_witness :
    (get_node_info ⟨200, [⟨"qemu101", "qemu", "web1", "pve1"⟩]⟩
        (some "web1") none).1 = .error .indexError :=
  get_node_info_index_error ⟨200, [⟨"qemu101", "qemu", "web1", "pve1"⟩]⟩
    (some "web1") none ⟨"qemu101", "qemu", "web1", "pve1"⟩
    (by decide) (by decide) (by decide) (by decide)

/-- Claim C10: `get_node_info` never inspects the HTTP status of the
inventory response — two responses with the same parsed body give the
same outcome — and its failures are only the validation, not-found or
indexing errors, never a connectivity error. -/
theorem get_node_info_ignores_status (s₁ s₂ : Nat) (d : List ResItem)
    (vmname vmid : Option String) :
    get_node_info ⟨s₁, d⟩ vmname vmid = get_node_info ⟨s₂, d⟩ vmname vmid ∧
    ∀ e : PyErr, (get_node_info ⟨s₁, d⟩ vmname vmid).1 = .error e →
      e = .validation ∨ e = .notFound ∨ e = .indexError :=
  ⟨rfl, fun e he => get_node_info_error_cases ⟨s₁, d⟩ vmname vmid e he⟩

/-- Witness for C10 at concrete statuses 500 and 200 and a one-entry body. -/
theorem get_node_info_ignores_status_witness :
    get_node_info ⟨500, [⟨"lxc/202", "lxc", "db1", "pve2"⟩]⟩ (some "nope") none =
      get_node_info ⟨200, [⟨"lxc/202", "lxc", "db1", "pve2"⟩]⟩ (some "nope") none ∧
    (PyErr.notFound = .validation ∨ PyErr.notFound = .notFound ∨
      PyErr.notFound = .indexError) :=
  ⟨(get_node_info_ignores_status 500 200 [⟨"lxc/202", "lxc", "db1", "pve2"⟩]
      (some "nope") none).1,
   (get_node_info_ignores_status 500 200 [⟨"lxc/202", "lxc", "db1", "pve2"⟩]
      (some "nope") none).2 .notFound rfl⟩

/-- Outcome of `requests.get('https://' + fqdn + ':443')`: the connection
fails (refused, unreachable — `requests.exceptions.ConnectionError`),
times out (`requests.exceptions.Timeout`), or yields a response with an
HTTP status code. -/
inductive ProbeResult where
  | connError
  | timeout
  | response (status : Nat)
deriving DecidableEq, Repr

/-- `determine_port`: the `except` clause catches only `ConnectionError`
and `Timeout`; the `HTTPError` raised by `raise_for_status()` on a
4xx/5xx response escapes the function. -/
def determine_port (probe : ProbeResult) : Except PyErr String :=
  match probe with
  | .connError => .ok "8006"
  | .timeout => .ok "8006"
  | .response status =>
    if 400 ≤ status ∧ status < 600 then .error (.httpError status)
    else .ok "443"

/-- Claim C2 (code bug evidence): a probe that connects but answers with
HTTP 404 makes `determine_port` raise the uncaught `HTTPError` instead
of returning the standard port; connection failures and timeouts do
return the fallback port, and a 2xx probe returns the standard port. -/
theorem determine_port_raises_on_http_error :
    determine_port (.response 404) = .error (.httpError 404) ∧
    determine_port (.response 404) ≠ .ok "443" ∧
    determine_port .connError = .ok "8006" ∧
    determine_port .timeout = .ok "8006" ∧
    determine_port (.response 200) = .ok "443" :=
  ⟨rfl, fun h => Except.noConfusion h, rfl, rfl, rfl⟩

/-- The `data` object of the `access/ticket` response, with the two keys
`get_pve_cookies` reads (`none` models a missing key). -/
structure TicketData where
  ticket : Option String
  csrf : Option String
deriving DecidableEq, Repr

/-- The ticket response: HTTP status code and the optional `data` object. -/
structure TicketResponse where
  status : Nat
  data : Option TicketData
deriving DecidableEq, Repr

/-- `get_pve_cookies`: a non-ok status (`requests` defines `ok` as
status < 400) raises `ConnectionError` with the status code; otherwise
the ticket and CSRF token are read in that order, a missing key raising
`KeyError`.  The source wraps each token in a one-key dictionary
(`PVEAuthCookie`, `CSRFPreventionToken`); the pair of token values is
returned here. -/
def get_pve_cookies (resp : TicketResponse) : Except PyErr (String × String) :=
  if ¬ resp.status < 400 then .error (.authError resp.status)
  else
    match resp.data with
    | none => .error .keyError
    | some d =>
      match d.ticket with
      | none => .error .keyError
      | some t =>
        match d.csrf with
        | none => .error .keyError
        | some c => .ok (t, c)

/-- Claim C4: a non-success status is a fatal authentication error
carrying the numeric status code, and `get_pve_cookies` returns a pair
exactly when the status is a success and the body carries both expected
fields, whose values the pair takes verbatim — never a partially
populated result. -/
theorem get_pve_cookies_spec (resp : TicketResponse) :
    (400 ≤ resp.status → get_pve_cookies resp = .error (.authError resp.status)) ∧
    (∀ t c : String, get_pve_cookies resp = .ok (t, c) ↔
      (resp.status < 400 ∧ resp.data = some ⟨some t, some c⟩)) := by
  constructor
  · intro h
    rw [get_pve_cookies, if_pos (Nat.not_lt.mpr h)]
  · intro t c
    rw [get_pve_cookies]
    by_cases hs : resp.status < 400
    · rw [if_neg (not_not_intro hs)]
      cases hd : resp.data with
      | none => simp [hs]
      | some d =>
        obtain ⟨dt, dc⟩ := d
        cases dt with
        | none => simp [hs]
        | some t2 =>
          cases dc with
          | none => simp [hs]
          | some c2 => simp [hs, and_comm, eq_comm]
    · rw [if_pos hs]
      constructor
      · intro h
        cases h
      · rintro ⟨h1, -⟩
        exact absurd h1 hs

/-- Witness for C4: a 401 response fails with the status code, and a 200
response with both fields returns exactly the two tokens. -/
theorem get_pve_cookies_spec_witness :
    get_pve_cookies ⟨401, none⟩ = .error (.authError 401) ∧
    (get_pve_cookies ⟨200, some ⟨some "TICKET", some "CSRF"⟩⟩ = .ok ("TICKET", "CSRF") ↔
      (200 < 400 ∧ (some ⟨some "TICKET", some "CSRF"⟩ : Option TicketData) =
        some ⟨some "TICKET", some "CSRF"⟩)) :=
  ⟨(get_pve_cookies_spec ⟨401, none⟩).1 (by decide),
   (get_pve_cookies_spec ⟨200, some ⟨some "TICKET", some "CSRF"⟩⟩).2 "TICKET" "CSRF"⟩

/-- The `data` object of the `spiceproxy` response, with the seven keys
the orchestrator reads (`none` models a missing key). -/
structure SpiceData where
  title : Option String
  host : Option String
  ca : Option String
  tlsPort : Option String
  password : Option String
  proxy : Option String
  hostSubject : Option String
deriving DecidableEq, Repr

/-- The display-proxy response: HTTP status code and optional `data`. -/
structure SpiceResponse where
  status : Nat
  data : Option SpiceData
deriving DecidableEq, Repr

/-- The seven Display Parameters the orchestrator passes to
`generate_rc_file`. -/
structure DisplayParams where
  title : String
  host : String
  ca : String
  tlsPort : String
  password : String
  proxy : String
  hostSubject : String
deriving DecidableEq, Repr

/-- `get_spice_info`: a non-ok status raises `ConnectionError` carrying
the status code; on success the response object is returned unchanged. -/
def get_spice_info (resp : SpiceResponse) : Except PyErr SpiceResponse :=
  if ¬ resp.status < 400 then .error (.proxyError resp.status)
  else .ok resp

/-- Steps 4–5 of `main`: `get_spice_info`, then
`pve_spice.json()['data']`, then the seven keyed accesses in the order
the call to `generate_rc_file` evaluates them; a missing key raises
`KeyError` (the `DEBUG` password print is disabled, `DEBUG = False`). -/
def extract_display_params (resp : SpiceResponse) : Except PyErr DisplayParams :=
  match get_spice_info resp with
  | .error e => .error e
  | .ok r =>
    match r.data with
    | none => .error .keyError
    | some d =>
      match d.title with
      | none => .error .keyError
      | some title =>
        match d.host with
        | none => .error .keyError
        | some host =>
          match d.ca with
          | none => .error .keyError
          | some ca =>
            match d.tlsPort with
            | none => .error .keyError
            | some tlsPort =>
              match d.password with
              | none => .error .keyError
              | some password =>
                match d.proxy with
                | none => .error .keyError
                | some proxy =>
                  match d.hostSubject with
                  | none => .error .keyError
                  | some hostSubject =>
                    .ok ⟨title, host, ca, tlsPort, password, proxy, hostSubject⟩

/-- Claim C6: a non-success display-proxy status is a fatal error
carrying the status code, and Display Parameters are produced exactly
when the status is a success and all seven fields are present in the
body's `data`, each taken verbatim; any absent field surfaces as an
error rather than a silent default. -/
theorem get_spice_info_spec (resp : SpiceResponse) :
    (400 ≤ resp.status → extract_display_params resp = .error (.proxyError resp.status)) ∧
    (∀ p : DisplayParams, extract_display_params resp = .ok p ↔
      (resp.status < 400 ∧ resp.data = some ⟨some p.title, some p.host, some p.ca,
        some p.tlsPort, some p.password, some p.proxy, some p.hostSubject⟩)) := by
  constructor
  · intro h
    rw [extract_display_params, get_spice_info, if_pos (Nat.not_lt.mpr h)]
  · intro p
    obtain ⟨pt, ph, pc, ptp, ppw, ppx, phs⟩ := p
    rw [extract_display_params, get_spice_info]
    by_cases hs : resp.status < 400
    · rw [if_neg (not_not_intro hs)]
      cases hd : resp.data with
      | none => simp [hs, hd]
      | some d =>
        obtain ⟨t, h, c, tp, pw, px, hsub⟩ := d
        cases t with
        | none => simp [hs, hd]
        | some t2 =>
          cases h with
          | none => simp [hs, hd]
          | some h2 =>
            cases c with
            | none => simp [hs, hd]
            | some c2 =>
              cases tp with
              | none => simp [hs, hd]
              | some tp2 =>
                cases pw with
                | none => simp [hs, hd]
                | some pw2 =>
                  cases px with
                  | none => simp [hs, hd]
                  | some px2 =>
                    cases hsub with
                    | none => simp [hs, hd]
                    | some hsub2 => simp [hs, hd]
    · rw [if_pos hs]
      constructor
      · intro h
        cases h
      · rintro ⟨h1, -⟩
        exact absurd h1 hs

/-- Witness for C6: a 500 response fails with the status code, and the
spec's end-to-end display-parameters scenario is recovered verbatim. -/
theorem get_spice_info_spec_witness :
    extract_display_params ⟨500, none⟩ = .error (.proxyError 500) ∧
    (extract_display_params ⟨200, some ⟨some "web1", some "pve1", some "BASE64",
        some "61000", some "abc123", some "https://pve1:3128", some "OU=PVE"⟩⟩ =
        .ok ⟨"web1", "pve1", "BASE64", "61000", "abc123", "https://pve1:3128",
          "OU=PVE"⟩ ↔
      (200 < 400 ∧ (some ⟨some "web1", some "pve1", some "BASE64", some "61000",
          some "abc123", some "https://pve1:3128", some "OU=PVE"⟩ :
            Option SpiceData) =
        some ⟨some "web1", some "pve1", some "BASE64", some "61000",
          some "abc123", some "https://pve1:3128", some "OU=PVE"⟩)) :=
  ⟨(get_spice_info_spec ⟨500, none⟩).1 (by decide),
   (get_spice_info_spec ⟨200, some ⟨some "web1", some "pve1", some "BASE64",
      some "61000", some "abc123", some "https://pve1:3128", some "OU=PVE"⟩⟩).2
     ⟨"web1", "pve1", "BASE64", "61000", "abc123", "https://pve1:3128", "OU=PVE"⟩⟩

/-- The subprocess invocation of step 6 of `main`: the argument vector
and the redirection of the child's standard streams to `os.devnull`;
`subprocess.run` blocks until the child exits. -/
structure SpawnCall where
  argv : List String
  stdoutToDevnull : Bool
  stderrToDevnull : Bool
  waitsForExit : Bool
deriving DecidableEq, Repr

/-- Step 6 of `main`: spawn `remote-viewer` on the descriptor file with
both streams suppressed and wait; `check_returncode()` raises
`CalledProcessError` exactly on a non-zero exit status, which the
`except` clause turns into a printed warning.  Returns the spawn call,
whether the warning was printed, and the orchestrator's exit status. -/
def launch_viewer (connectionFileName : String) (exitCode : Int) :
    SpawnCall × Bool × Nat :=
  (⟨["remote-viewer", connectionFileName], true, true, true⟩,
   exitCode != 0, 0)

/-- Claim C7: the viewer is spawned with the descriptor path as its sole
argument, stdout and stderr suppressed, and is waited for; a non-zero
child exit yields only the printed warning and the orchestrator still
exits zero. -/
theorem launch_viewer_spec (path : String) (code : Int) :
    (launch_viewer path code).1 = ⟨["remote-viewer", path], true, true, true⟩ ∧
    ((launch_viewer path code).2.1 = true ↔ code ≠ 0) ∧
    (launch_viewer path code).2.2 = 0 := by
  refine ⟨rfl, ?_, rfl⟩
  simp [launch_viewer]

/-- Witness for C7 at a concrete path and a failing child exit status. -/
theorem launch_viewer_spec_witness :
    (launch_viewer "spice.conf" 1).1 = ⟨["remote-viewer", "spice.conf"], true, true, true⟩ ∧
    ((launch_viewer "spice.conf" 1).2.1 = true ↔ (1 : Int) ≠ 0) ∧
    (launch_viewer "spice.conf" 1).2.2 = 0 :=
  launch_viewer_spec "spice.conf" 1

/-- POSIX mode of the descriptor file `generate_rc_file` creates: the
script reads `.name` from `tempfile.NamedTemporaryFile(dir=..., suffix='.conf')`,
whose object CPython finalizes at once (closing and, with the default
`delete=True`, removing its 0o600 file), and then creates the descriptor
with plain `open(name, 'w')` — a fresh file whose mode is the requested
`0o666` masked by the process umask. -/
def rc_file_mode (umask : Nat) : Nat := 0o666 &&& (0o777 ^^^ umask)

/-- Readable only by the invoking user: group-read and other-read
permission bits clear. -/
def ownerOnlyReadable (mode : Nat) : Prop := mode &&& 0o044 = 0

/-- Claim C8 (code bug evidence): under the common default umask 0o022
the descriptor file — which holds the plaintext one-time password — is
created with mode 0o644, group- and world-readable, not with the
owner-only temporary-file mode 0o600 the spec describes. -/
theorem rc_file_mode_world_readable :
    rc_file_mode 0o022 = 0o644 ∧ ¬ ownerOnlyReadable (rc_file_mode 0o022) ∧
    ownerOnlyReadable 0o600 := by
  refine ⟨by decide, ?_, ?_⟩
  · show ¬ (rc_file_mode 0o022 &&& 0o044 = 0)
    decide
  · show 0o600 &&& 0o044 = 0
    decide

/-- The `conn_param` list of `generate_rc_file`, in the order the lines
are appended and written. -/
def rcLines (title host cert port password proxy subject : String) :
    List String :=
  ["[virt-viewer]" ++ "\n",
   "type=spice" ++ "\n",
   "toggle-fullscreen=Shift+F11" ++ "\n",
   "title=" ++ title ++ "\n",
   "tls-port=" ++ port ++ "\n",
   "host=" ++ host ++ "\n",
   "ca=" ++ cert ++ "\n",
   "host-subject=" ++ subject ++ "\n",
   "password=" ++ password ++ "\n",
   "proxy=" ++ proxy ++ "\n",
   "release-cursor=Ctrl+Alt+R" ++ "\n",
   "delete-this-file=1" ++ "\n"]

/-- `generate_rc_file`: writes the lines to
`tempfile.NamedTemporaryFile(dir=os.path.expanduser("~"), suffix='.conf').name`
and returns that name.  `home` is the expanded home directory and
`tmpStem` the random file stem chosen by `tempfile`; the result is the
returned path and the written file body. -/
def generate_rc_file (home tmpStem : String)
    (title host cert port password proxy subject : String) : String × String :=
  (home ++ "/" ++ tmpStem ++ ".conf",
   String.join (rcLines title host cert port password proxy subject))

/-- Split one line at its first `=`: `none` when the line has no `=`
(such as the section header), otherwise the key before it and the whole
remainder after it. -/
def parseLine (l : List Char) : Option (String × String) :=
  match l.dropWhile (· ≠ '=') with
  | [] => none
  | _ :: v => some (⟨l.takeWhile (· ≠ '=')⟩, ⟨v⟩)

/-- Parse a descriptor body back as `key=value` pairs: split into lines,
parse each at its first `=`, drop lines without one. -/
def parseKV (content : String) : List (String × String) :=
  (pySplit '\n' content.data).filterMap parseLine

theorem dropWhile_append_sep (c : Char) (k rest : List Char) (hk : c ∉ k) :
    (k ++ c :: rest).dropWhile (· ≠ c) = c :: rest := by
  induction k with
  | nil => simp [List.dropWhile]
  | cons a k2 ih =>
    simp only [List.mem_cons, not_or] at hk
    have hd : (decide (a ≠ c)) = true := decide_eq_true (fun h => hk.1 h.symm)
    simp only [List.cons_append, List.dropWhile, hd, List.append_eq]
    exact ih hk.2

theorem takeWhile_append_sep (c : Char) (k rest : List Char) (hk : c ∉ k) :
    (k ++ c :: rest).takeWhile (· ≠ c) = k := by
  induction k with
  | nil => simp [List.takeWhile]
  | cons a k2 ih =>
    simp only [List.mem_cons, not_or] at hk
    have hd : (decide (a ≠ c)) = true := decide_eq_true (fun h => hk.1 h.symm)
    simp only [List.cons_append, List.takeWhile, hd, List.append_eq]
    rw [ih hk.2]

theorem parseLine_keyed (kEq k v : String) (hsplit : kEq.data = k.data ++ ['='])
    (hk : '=' ∉ k.data) : parseLine (kEq.data ++ v.data) = some (k, v) := by
  rw [hsplit, show (k.data ++ ['=']) ++ v.data = k.data ++ '=' :: v.data by simp]
  rw [parseLine, dropWhile_append_sep '=' k.data v.data hk]
  rw [takeWhile_append_sep '=' k.data v.data hk]

theorem foldl_append_data (l : List String) (acc : String) :
    (l.foldl (fun r s => r ++ s) acc).data =
      acc.data ++ (l.map String.data).flatten := by
  induction l generalizing acc with
  | nil => simp
  | cons s rest ih =>
    simp [List.foldl, ih, String.data_append, List.append_assoc]

theorem join_data (l : List String) :
    (String.join l).data = (l.map String.data).flatten := by
  rw [String.join, foldl_append_data]
  rfl

theorem not_mem_append_of (c : Char) (a b : List Char) (ha : c ∉ a) (hb : c ∉ b) :
    c ∉ a ++ b := fun h => (List.mem_append.mp h).elim ha hb

/-- Claim C3: the descriptor body is exactly the 12-line template of the
spec with the seven values substituted; parsing it back as `key=value`
pairs recovers exactly the seven inputs plus the four fixed values; and
the returned path lies under the home directory and ends in `.conf`.
The seven values are assumed newline-free, as a value containing a
newline would change the line structure. -/
theorem generate_rc_file_spec (home tmpStem : String)
    (title host cert port password proxy subject : String)
    (hTitle : '\n' ∉ title.data) (hPort : '\n' ∉ port.data)
    (hHost : '\n' ∉ host.data) (hCert : '\n' ∉ cert.data)
    (hSubject : '\n' ∉ subject.data) (hPassword : '\n' ∉ password.data)
    (hProxy : '\n' ∉ proxy.data) :
    (generate_rc_file home tmpStem title host cert port password proxy subject).2 =
      "[virt-viewer]\ntype=spice\ntoggle-fullscreen=Shift+F11\ntitle=" ++ title ++
      "\ntls-port=" ++ port ++ "\nhost=" ++ host ++ "\nca=" ++ cert ++
      "\nhost-subject=" ++ subject ++ "\npassword=" ++ password ++
      "\nproxy=" ++ proxy ++ "\nrelease-cursor=Ctrl+Alt+R\ndelete-this-file=1\n" ∧
    parseKV (generate_rc_file home tmpStem title host cert port password proxy subject).2 =
      [("type", "spice"), ("toggle-fullscreen", "Shift+F11"), ("title", title),
       ("tls-port", port), ("host", host), ("ca", cert), ("host-subject", subject),
       ("password", password), ("proxy", proxy), ("release-cursor", "Ctrl+Alt+R"),
       ("delete-this-file", "1")] ∧
    (∃ rest, (generate_rc_file home tmpStem title host cert port password proxy
      subject).1 = home ++ "/" ++ rest) ∧
    (∃ stem, (generate_rc_file home tmpStem title host cert port password proxy
      subject).1 = stem ++ ".conf") := by
  have hdata : (String.join (rcLines title host cert port password proxy subject)).data =
      "[virt-viewer]".data ++ '\n' :: ("type=spice".data ++ '\n' ::
        ("toggle-fullscreen=Shift+F11".data ++ '\n' :: ("title=".data ++ title.data ++ '\n' ::
        ("tls-port=".data ++ port.data ++ '\n' :: ("host=".data ++ host.data ++ '\n' ::
        ("ca=".data ++ cert.data ++ '\n' :: ("host-subject=".data ++ subject.data ++ '\n' ::
        ("password=".data ++ password.data ++ '\n' :: ("proxy=".data ++ proxy.data ++ '\n' ::
        ("release-cursor=Ctrl+Alt+R".data ++ '\n' ::
          ("delete-this-file=1".data ++ '\n' :: []))))))))))) := by
    simp [rcLines, String.join, List.foldl, String.data_append, List.append_assoc,
      (show ("\n" : String).data = ['\n'] by decide),
      (show ("" : String).data = ([] : List Char) by decide)]
  refine ⟨?_, ?_, ⟨tmpStem ++ ".conf", ?_⟩, ⟨home ++ "/" ++ tmpStem, rfl⟩⟩
  · show String.join (rcLines title host cert port password proxy subject) = _
    apply String.ext
    simp [rcLines, String.join, List.foldl, String.data_append, List.append_assoc,
      (show ("\n" : String).data = ['\n'] by decide),
      (show ("" : String).data = ([] : List Char) by decide),
      (show ("[virt-viewer]\ntype=spice\ntoggle-fullscreen=Shift+F11\ntitle=" : String).data =
        "[virt-viewer]".data ++ '\n' :: ("type=spice".data ++ '\n' ::
          ("toggle-fullscreen=Shift+F11".data ++ '\n' :: "title=".data)) by decide),
      (show ("\ntls-port=" : String).data = '\n' :: "tls-port=".data by decide),
      (show ("\nhost=" : String).data = '\n' :: "host=".data by decide),
      (show ("\nca=" : String).data = '\n' :: "ca=".data by decide),
      (show ("\nhost-subject=" : String).data = '\n' :: "host-subject=".data by decide),
      (show ("\npassword=" : String).data = '\n' :: "password=".data by decide),
      (show ("\nproxy=" : String).data = '\n' :: "proxy=".data by decide),
      (show ("\nrelease-cursor=Ctrl+Alt+R\ndelete-this-file=1\n" : String).data =
        '\n' :: ("release-cursor=Ctrl+Alt+R".data ++ '\n' ::
          ("delete-this-file=1".data ++ ['\n'])) by decide)]
  · show parseKV (String.join (rcLines title host cert port password proxy subject)) = _
    rw [parseKV, hdata]
    rw [pySplit_append '\n' _ _ (by decide),
      pySplit_append '\n' _ _ (by decide),
      pySplit_append '\n' _ _ (by decide),
      pySplit_append '\n' _ _ (not_mem_append_of '\n' _ _ (by decide) hTitle),
      pySplit_append '\n' _ _ (not_mem_append_of '\n' _ _ (by decide) hPort),
      pySplit_append '\n' _ _ (not_mem_append_of '\n' _ _ (by decide) hHost),
      pySplit_append '\n' _ _ (not_mem_append_of '\n' _ _ (by decide) hCert),
      pySplit_append '\n' _ _ (not_mem_append_of '\n' _ _ (by decide) hSubject),
      pySplit_append '\n' _ _ (not_mem_append_of '\n' _ _ (by decide) hPassword),
      pySplit_append '\n' _ _ (not_mem_append_of '\n' _ _ (by decide) hProxy),
      pySplit_append '\n' _ _ (by decide),
      pySplit_append '\n' _ _ (by decide)]
    simp only [List.filterMap_cons,
      (show parseLine "[virt-viewer]".data = none by decide),
      (show parseLine "type=spice".data = some ("type", "spice") by decide),
      (show parseLine "toggle-fullscreen=Shift+F11".data =
        some ("toggle-fullscreen", "Shift+F11") by decide),
      parseLine_keyed "title=" "title" title (by decide) (by decide),
      parseLine_keyed "tls-port=" "tls-port" port (by decide) (by decide),
      parseLine_keyed "host=" "host" host (by decide) (by decide),
      parseLine_keyed "ca=" "ca" cert (by decide) (by decide),
      parseLine_keyed "host-subject=" "host-subject" subject (by decide) (by decide),
      parseLine_keyed "password=" "password" password (by decide) (by decide),
      parseLine_keyed "proxy=" "proxy" proxy (by decide) (by decide),
      (show parseLine "release-cursor=Ctrl+Alt+R".data =
        some ("release-cursor", "Ctrl+Alt+R") by decide),
      (show parseLine "delete-this-file=1".data = some ("delete-this-file", "1") by decide),
      (show pySplit '\n' [] = [[]] from rfl),
      (show parseLine ([] : List Char) = none from rfl),
      List.filterMap_nil]
  · show home ++ "/" ++ tmpStem ++ ".conf" = home ++ "/" ++ (tmpStem ++ ".conf")
    rw [String.append_assoc]

/-- Witness for C3: the spec's end-to-end display-parameters scenario. -/
theorem generate_rc_file_spec_witness :
    (generate_rc_file "/home/user" "tmp3q6cocn7" "web1" "pve1" "BASE64" "61000"
        "abc123" "https://pve1:3128" "OU=PVE").2 =
      "[virt-viewer]\ntype=spice\ntoggle-fullscreen=Shift+F11\ntitle=" ++ "web1" ++
      "\ntls-port=" ++ "61000" ++ "\nhost=" ++ "pve1" ++ "\nca=" ++ "BASE64" ++
      "\nhost-subject=" ++ "OU=PVE" ++ "\npassword=" ++ "abc123" ++
      "\nproxy=" ++ "https://pve1:3128" ++
      "\nrelease-cursor=Ctrl+Alt+R\ndelete-this-file=1\n" ∧
    parseKV (generate_rc_file "/home/user" "tmp3q6cocn7" "web1" "pve1" "BASE64"
        "61000" "abc123" "https://pve1:3128" "OU=PVE").2 =
      [("type", "spice"), ("toggle-fullscreen", "Shift+F11"), ("title", "web1"),
       ("tls-port", "61000"), ("host", "pve1"), ("ca", "BASE64"),
       ("host-subject", "OU=PVE"), ("password", "abc123"),
       ("proxy", "https://pve1:3128"), ("release-cursor", "Ctrl+Alt+R"),
       ("delete-this-file", "1")] ∧
    (∃ rest, (generate_rc_file "/home/user" "tmp3q6cocn7" "web1" "pve1" "BASE64"
      "61000" "abc123" "https://pve1:3128" "OU=PVE").1 = "/home/user" ++ "/" ++ rest) ∧
    (∃ stem, (generate_rc_file "/home/user" "tmp3q6cocn7" "web1" "pve1" "BASE64"
      "61000" "abc123" "https://pve1:3128" "OU=PVE").1 = stem ++ ".conf") :=
  generate_rc_file_spec "/home/user" "tmp3q6cocn7" "web1" "pve1" "BASE64" "61000"
    "abc123" "https://pve1:3128" "OU=PVE" (by decide) (by decide) (by decide)
    (by decide) (by decide) (by decide) (by decide)

end Rwrap

